import Mathlib

/-!
Verification development for the cv-rank-generator server (`server.js`).

The development shallowly embeds the request handlers of the Express server:
the multer upload filter, `extractTextFromFile`, the `/api/rank-cvs` and
`/api/generate-cvs` handlers (prompt assembly, control-character stripping,
`JSON.parse`, fallback records, `fs.unlinkSync` cleanup).  File-system reads,
the OpenAI completion call and `unlinkSync` are modelled as an explicit
environment of `Except`-valued functions; handlers return the HTTP response
together with the list of file paths whose deletion was attempted.
-/

/-- Model of the JSON values produced by JavaScript `JSON.parse`.  Numbers are
kept as their source token text so that no floating-point semantics is
needed; objects keep their members in source order. -/
inductive Json where
  | null : Json
  | bool : Bool → Json
  | num : String → Json
  | str : String → Json
  | arr : List Json → Json
  | obj : List (String × Json) → Json

/-- JavaScript object member lookup on a parsed JSON object: the last
occurrence of a duplicated key wins, as in `JSON.parse`. -/
def Json.getObjField : Json → String → Option Json
  | .obj fs, k => fs.foldl (fun acc p => if p.1 = k then some p.2 else acc) none
  | _, _ => none

/-- The four whitespace characters allowed between JSON tokens. -/
def isJsonWs (c : Char) : Bool :=
  c = ' ' || c = '\t' || c = '\n' || c = '\r'

/-- Skip JSON inter-token whitespace. -/
def skipWs (cs : List Char) : List Char :=
  cs.dropWhile isJsonWs

/-- Decimal digit test. -/
def isDigitCh (c : Char) : Bool :=
  '0' ≤ c && c ≤ '9'

/-- Value of a hexadecimal digit. -/
def hexVal (c : Char) : Option Nat :=
  if '0' ≤ c ∧ c ≤ '9' then some (c.toNat - 48)
  else if 'a' ≤ c ∧ c ≤ 'f' then some (c.toNat - 87)
  else if 'A' ≤ c ∧ c ≤ 'F' then some (c.toNat - 55)
  else none

/-- Parse the body of a JSON string literal (the opening quote already
consumed): returns the decoded characters and the input after the closing
quote.  Unescaped control characters below 0x20 are rejected, as in strict
`JSON.parse`.  Fuel bounds the recursion; one unit per consumed character
suffices. -/
def parseJStringChars : Nat → List Char → Option (List Char × List Char)
  | 0, _ => none
  | _ + 1, [] => none
  | fuel + 1, c :: rest =>
    if c = '"' then some ([], rest)
    else if c = '\\' then
      match rest with
      | [] => none
      | e :: rest2 =>
        let decoded : Option (Char × List Char) :=
          if e = '"' then some ('"', rest2)
          else if e = '\\' then some ('\\', rest2)
          else if e = '/' then some ('/', rest2)
          else if e = 'b' then some ('\x08', rest2)
          else if e = 'f' then some ('\x0c', rest2)
          else if e = 'n' then some ('\n', rest2)
          else if e = 'r' then some ('\r', rest2)
          else if e = 't' then some ('\t', rest2)
          else if e = 'u' then
            match rest2 with
            | a :: b :: c2 :: d :: rest3 =>
              match hexVal a, hexVal b, hexVal c2, hexVal d with
              | some ha, some hb, some hc, some hd =>
                some (Char.ofNat (((ha * 16 + hb) * 16 + hc) * 16 + hd), rest3)
              | _, _, _, _ => none
            | _ => none
          else none
        match decoded with
        | some (ch, rem) =>
          match parseJStringChars fuel rem with
          | some (cs2, r2) => some (ch :: cs2, r2)
          | none => none
        | none => none
    else if c.toNat < 32 then none
    else
      match parseJStringChars fuel rest with
      | some (cs2, r2) => some (c :: cs2, r2)
      | none => none

/-- Integer part of a JSON number: `0`, or a nonzero digit followed by
digits. -/
def parseIntPart : List Char → Option (List Char × List Char)
  | [] => none
  | c :: r =>
    if c = '0' then some (['0'], r)
    else if isDigitCh c then
      let (ds, r2) := r.span isDigitCh
      some (c :: ds, r2)
    else none

/-- Optional fraction part of a JSON number. -/
def parseFracPart : List Char → Option (List Char × List Char)
  | '.' :: r =>
    let (ds, r2) := r.span isDigitCh
    if ds.isEmpty then none else some ('.' :: ds, r2)
  | cs => some ([], cs)

/-- Optional exponent part of a JSON number. -/
def parseExpPart : List Char → Option (List Char × List Char)
  | [] => some ([], [])
  | c :: r =>
    if c = 'e' ∨ c = 'E' then
      let (sg, r1) : List Char × List Char :=
        match r with
        | '+' :: r2 => (['+'], r2)
        | '-' :: r2 => (['-'], r2)
        | _ => ([], r)
      let (ds, r2) := r1.span isDigitCh
      if ds.isEmpty then none else some (c :: (sg ++ ds), r2)
    else some ([], c :: r)

/-- Parse a JSON number starting at the head of the input, returning its
source token. -/
def parseJNumber (cs : List Char) : Option (Json × List Char) :=
  let (sgn, cs1) : List Char × List Char :=
    match cs with
    | '-' :: r => (['-'], r)
    | _ => ([], cs)
  match parseIntPart cs1 with
  | none => none
  | some (ip, r1) =>
    match parseFracPart r1 with
    | none => none
    | some (fp, r2) =>
      match parseExpPart r2 with
      | none => none
      | some (ep, r3) => some (.num ⟨sgn ++ ip ++ fp ++ ep⟩, r3)

mutual

/-- Parse a single JSON value whose first character is at the head of the
input (whitespace already skipped by the caller). -/
def parseJValue : Nat → List Char → Option (Json × List Char)
  | 0, _ => none
  | fuel + 1, cs =>
    match cs with
    | [] => none
    | c :: rest =>
      if c = 'n' then
        match rest with
        | 'u' :: 'l' :: 'l' :: r => some (.null, r)
        | _ => none
      else if c = 't' then
        match rest with
        | 'r' :: 'u' :: 'e' :: r => some (.bool true, r)
        | _ => none
      else if c = 'f' then
        match rest with
        | 'a' :: 'l' :: 's' :: 'e' :: r => some (.bool false, r)
        | _ => none
      else if c = '"' then
        match parseJStringChars (rest.length + 1) rest with
        | some (cs2, r) => some (.str ⟨cs2⟩, r)
        | none => none
      else if c = '[' then
        match skipWs rest with
        | ']' :: r => some (.arr [], r)
        | cs1 =>
          match parseJArrayItems fuel cs1 with
          | some (xs, r) => some (.arr xs, r)
          | none => none
      else if c = '{' then
        match skipWs rest with
        | '}' :: r => some (.obj [], r)
        | cs1 =>
          match parseJObjItems fuel cs1 with
          | some (kvs, r) => some (.obj kvs, r)
          | none => none
      else if c = '-' ∨ isDigitCh c then parseJNumber cs
      else none

/-- Parse the comma-separated items of a JSON array (first item at the head
of the input), consuming the closing bracket. -/
def parseJArrayItems : Nat → List Char → Option (List Json × List Char)
  | 0, _ => none
  | fuel + 1, cs =>
    match parseJValue fuel cs with
    | none => none
    | some (v, r) =>
      match skipWs r with
      | ',' :: r2 =>
        match parseJArrayItems fuel (skipWs r2) with
        | some (vs, r3) => some (v :: vs, r3)
        | none => none
      | ']' :: r2 => some ([v], r2)
      | _ => none

/-- Parse the comma-separated members of a JSON object (first key quote at
the head of the input), consuming the closing brace. -/
def parseJObjItems : Nat → List Char → Option (List (String × Json) × List Char)
  | 0, _ => none
  | fuel + 1, cs =>
    match cs with
    | '"' :: rest =>
      match parseJStringChars (rest.length + 1) rest with
      | none => none
      | some (kcs, r1) =>
        match skipWs r1 with
        | ':' :: r2 =>
          match parseJValue fuel (skipWs r2) with
          | none => none
          | some (v, r3) =>
            match skipWs r3 with
            | ',' :: r4 =>
              match parseJObjItems fuel (skipWs r4) with
              | some (kvs, r5) => some ((⟨kcs⟩, v) :: kvs, r5)
              | none => none
            | '}' :: r4 => some ([(⟨kcs⟩, v)], r4)
            | _ => none
        | _ => none
    | _ => none

end

/-- Model of strict JavaScript `JSON.parse`: `some` of the parsed value on
success, `none` where `JSON.parse` would throw a `SyntaxError`. -/
def parseJson (s : String) : Option Json :=
  let cs := skipWs s.data
  match parseJValue (2 * cs.length + 4) cs with
  | some (v, r) => if (skipWs r).isEmpty then some v else none
  | none => none

example : parseJson "null" = some .null := by rfl
example : parseJson " [1, true] " = some (.arr [.num "1", .bool true]) := by rfl
example : parseJson "\x7b\"a\": [1, true]\x7d" =
    some (.obj [("a", .arr [.num "1", .bool true])]) := by rfl
example : parseJson "not json" = none := by rfl
example : parseJson "\x7b\"rankings\":[\x7b\"filename\":\"a\"\x7d]\x7d" =
    some (.obj [("rankings", .arr [.obj [("filename", .str "a")]])]) := by rfl
example : parseJson "01" = none := by rfl
example : parseJson "\"a\\nb\"" = some (.str "a\nb") := by rfl

mutual

/-- Tagged textual encoding of a `Json` value, used only to separate two
concrete values: unequal encodings imply unequal values. -/
def Json.enc : Json → String
  | .null => "n"
  | .bool b => if b then "T" else "F"
  | .num s => "N" ++ s ++ ";"
  | .str s => "S" ++ s ++ ";"
  | .arr xs => "[" ++ Json.encList xs ++ "]"
  | .obj kvs => "(" ++ Json.encFields kvs ++ ")"

/-- Encoding of a list of `Json` values. -/
def Json.encList : List Json → String
  | [] => ""
  | x :: xs => Json.enc x ++ "," ++ Json.encList xs

/-- Encoding of the members of a `Json` object. -/
def Json.encFields : List (String × Json) → String
  | [] => ""
  | (k, v) :: kvs => "K" ++ k ++ ":" ++ Json.enc v ++ "," ++ Json.encFields kvs

end

example : Json.enc (.arr [.null, .num "1"]) = "[n,N1;,]" := by rfl

/-- A character removed by the server regex `[\x00-\x1F\x7F]`: ASCII control
characters 0x00 to 0x1F and DEL (0x7F). -/
def isCtrlChar (c : Char) : Bool :=
  c.toNat ≤ 31 || c.toNat = 127

/-- Model of `response.replace(/[\x00-\x1F\x7F]/g, '')`: remove every ASCII
control character from the string. -/
def stripControl (s : String) : String :=
  ⟨s.data.filter (fun c => !(isCtrlChar c))⟩

example : stripControl "\x00a\x1fb\x7fc" = "abc" := by rfl

/-- Model of JavaScript `Array.prototype.join(sep)`. -/
def jsJoin (sep : String) : List String → String
  | [] => ""
  | [a] => a
  | a :: b :: rest => a ++ sep ++ jsJoin sep (b :: rest)

/-- Model of JavaScript `Array.prototype.map((x, index) => ...)`, with an
explicit start index so that facts can be proved by induction. -/
def mapWithIndex (f : Nat → α → β) : Nat → List α → List β
  | _, [] => []
  | i, a :: as => f i a :: mapWithIndex f (i + 1) as

/-- An uploaded file as multer hands it to the handlers: storage path,
original client filename and declared MIME type. -/
structure UploadedFile where
  path : String
  originalname : String
  mimetype : String

/-- The file-system and library effects used by `extractTextFromFile`,
indexed by storage path: `pdfParse(fs.readFileSync(path)).text`,
`mammoth.extractRawText({path}).value` and `fs.readFileSync(path, 'utf8')`.
An `Except.error` models a thrown exception. -/
structure FsEnv where
  readPdf : String → Except String String
  readDocx : String → Except String String
  readText : String → Except String String

/-- Model of `extractTextFromFile(filePath, mimetype)`: dispatch on the
declared MIME type; any MIME type other than PDF, OOXML Word and plain text
throws `Unsupported file type` — in particular legacy Word
(`application/msword`) has no branch. -/
def extractTextFromFile (env : FsEnv) (filePath mimetype : String) :
    Except String String :=
  if mimetype = "application/pdf" then env.readPdf filePath
  else if mimetype = "application/vnd.openxmlformats-officedocument.wordprocessingml.document" then
    env.readDocx filePath
  else if mimetype = "text/plain" then env.readText filePath
  else .error "Unsupported file type"

/-- The multer `fileFilter` allow-list of the upload middleware. -/
def allowedTypes : List String :=
  ["application/pdf",
   "application/msword",
   "application/vnd.openxmlformats-officedocument.wordprocessingml.document",
   "text/plain"]

/-- Model of the multer `fileFilter` callback: a file is accepted exactly
when its declared MIME type is on the allow-list. -/
def fileFilterAccepts (mimetype : String) : Bool :=
  allowedTypes.contains mimetype

/-- The HTTP response of a handler: `badRequest m` is
`res.status(400).json(\x7berror: m\x7d)`, `serverError m` is
`res.status(500).json(\x7berror: m\x7d)` and `ok success data` is
`res.json(\x7bsuccess, data\x7d)` (status 200). -/
inductive ApiResponse where
  | badRequest : String → ApiResponse
  | serverError : String → ApiResponse
  | ok : Bool → Json → ApiResponse

/-- Extract text from a list of files in order, keeping each file's original
name, as the `for (const cv of cvs)` loop of `/api/rank-cvs` does; the first
thrown extraction error aborts the loop. -/
def extractAll (env : FsEnv) : List UploadedFile → Except String (List (String × String))
  | [] => .ok []
  | f :: rest =>
    match extractTextFromFile env f.path f.mimetype with
    | .error e => .error e
    | .ok t =>
      match extractAll env rest with
      | .error e => .error e
      | .ok r => .ok ((f.originalname, t) :: r)

/-- Model of the `[...cvs, ...jobDescription].forEach(file =>
fs.unlinkSync(file.path))` cleanup loop: returns the paths whose deletion
was attempted, and the error of the first `unlinkSync` throw if any (a throw
aborts the loop, so later files are not attempted). -/
def unlinkAll (unlink : String → Except String Unit) :
    List UploadedFile → List String × Option String
  | [] => ([], none)
  | f :: rest =>
    match unlink f.path with
    | .error e => ([f.path], some e)
    | .ok _ =>
      let (att, err) := unlinkAll unlink rest
      (f.path :: att, err)

/-- The ranking prompt text before the interpolated job-description text. -/
def rankPromptHead : String :=
  "You are an expert HR recruiter. Please analyze the following CVs against the job description and provide a ranking from 1-100 for each CV, along with detailed explanations, advantages, and disadvantages.\n\nJob Description:\n"

/-- The ranking prompt text between the job-description text and the CV
block. -/
def rankPromptMid : String := "\n\nCVs to analyze:\n"

/-- The ranking prompt text after the CV block: the requested JSON format
and the extraction instructions. -/
def rankPromptTail : String :=
  "\n\nPlease provide your analysis in the following JSON format:\n\x7b\n  \"rankings\": [\n    \x7b\n      \"filename\": \"cv1.pdf\",\n      \"candidateName\": \"John Doe\",\n      \"phone\": \"+1-555-123-4567\",\n      \"email\": \"john.doe@email.com\",\n      \"score\": 85,\n      \"explanation\": \"Strong technical skills match...\",\n      \"advantages\": [\"Relevant experience in...\", \"Strong educational background...\"],\n      \"disadvantages\": [\"Lacks experience in...\", \"Could improve...\"]\n    \x7d\n  ]\n\x7d\n\nIMPORTANT: Extract the candidate\x27s full name, phone number, and email address from each CV. If any information is not available, use \"Not provided\" for that field."

/-- One CV entry of the ranking prompt, from the template
`CV (index + 1) (cv.filename):\n(cv.text)\n---` (a pair is
`(filename, text)`). -/
def cvEntry (i : Nat) (cv : String × String) : String :=
  "CV " ++ toString (i + 1) ++ " (" ++ cv.1 ++ "):\n" ++ cv.2 ++ "\n---"

/-- Model of the `prompt` template literal of `/api/rank-cvs`: header, job
description, CV block (`map((cv, index) => ...).join('\n')`), tail. -/
def buildRankPrompt (jobDescText : String) (cvTexts : List (String × String)) : String :=
  rankPromptHead ++ jobDescText ++ rankPromptMid ++
    jsJoin "\n" (mapWithIndex cvEntry 0 cvTexts) ++ rankPromptTail

/-- The single record of `fallbackData.rankings` in `/api/rank-cvs`: a
literal object with five fields (note: no candidateName, phone or email). -/
def fallbackRecord : Json :=
  .obj [("filename", .str "Error parsing AI response"),
        ("score", .num "0"),
        ("explanation", .str "There was an error parsing the AI response. Please try again."),
        ("advantages", .arr []),
        ("disadvantages", .arr [])]

/-- The literal `fallbackData` object of `/api/rank-cvs`. -/
def fallbackData : Json :=
  .obj [("rankings", .arr [fallbackRecord])]

/-- The effects available to the `/api/rank-cvs` handler: file-system reads,
the OpenAI chat-completion call (as a function of the prompt; an error
models a thrown/rejected call) and `fs.unlinkSync`. -/
structure RankEnv where
  fs : FsEnv
  modelCall : String → Except String String
  unlink : String → Except String Unit

/-- Model of the `/api/rank-cvs` handler.  Returns the HTTP response and the
list of storage paths whose deletion was attempted.  Mirrors the source
order: missing-part checks, job-description extraction, CV extraction loop,
model call, control-character strip, cleanup loop (inside the `try`, before
the parse), then `JSON.parse` with the fallback record on a parse throw;
any earlier throw reaches the outer `catch`, which responds 500 and does
not delete anything. -/
def rankCvsHandler (env : RankEnv) (cvs jobDescription : List UploadedFile) :
    ApiResponse × List String :=
  match cvs, jobDescription with
  | [], _ => (.badRequest "No CV files uploaded", [])
  | _ :: _, [] => (.badRequest "No job description uploaded", [])
  | cv0 :: cvrest, jd :: jdrest =>
    match extractTextFromFile env.fs jd.path jd.mimetype with
    | .error e => (.serverError ("Failed to rank CVs: " ++ e), [])
    | .ok jobDescText =>
      match extractAll env.fs (cv0 :: cvrest) with
      | .error e => (.serverError ("Failed to rank CVs: " ++ e), [])
      | .ok cvTexts =>
        match env.modelCall (buildRankPrompt jobDescText cvTexts) with
        | .error e => (.serverError ("Failed to rank CVs: " ++ e), [])
        | .ok response =>
          let cleanedResponse := stripControl response
          match unlinkAll env.unlink ((cv0 :: cvrest) ++ (jd :: jdrest)) with
          | (attempted, some e) =>
            (.serverError ("Failed to rank CVs: " ++ e), attempted)
          | (attempted, none) =>
            match parseJson cleanedResponse with
            | some parsedData => (.ok true parsedData, attempted)
            | none => (.ok true fallbackData, attempted)

/-- JavaScript whitespace skipped by `parseInt` before the number. -/
def isJsWs (c : Char) : Bool :=
  c = ' ' || c = '\t' || c = '\n' || c = '\r' || c = '\x0b' || c = '\x0c' ||
    c.toNat = 0xA0 || c.toNat = 0xFEFF

/-- Value of a digit in the given base (10 or 16), `none` if the character
is not a digit of that base. -/
def digitValBase (base : Nat) (c : Char) : Option Nat :=
  match hexVal c with
  | some v => if v < base then some v else none
  | none => none

/-- Model of JavaScript `parseInt(s)` with no radix argument: skip leading
whitespace, optional sign, optional `0x`/`0X` hex prefix, then the longest
prefix of digits; `none` models `NaN`. -/
def jsParseInt (s : String) : Option Int :=
  let cs := s.data.dropWhile isJsWs
  let (neg, cs1) : Bool × List Char :=
    match cs with
    | '-' :: r => (true, r)
    | '+' :: r => (false, r)
    | _ => (false, cs)
  let (base, cs2) : Nat × List Char :=
    match cs1 with
    | '0' :: 'x' :: r => (16, r)
    | '0' :: 'X' :: r => (16, r)
    | _ => (10, cs1)
  let ds := cs2.takeWhile (fun c => (digitValBase base c).isSome)
  if ds.isEmpty then none
  else
    let v : Nat := ds.foldl (fun acc c => acc * base + ((digitValBase base c).getD 0)) 0
    some (if neg then -(v : Int) else (v : Int))

example : jsParseInt "11" = some 11 := by rfl
example : jsParseInt "3" = some 3 := by rfl
example : jsParseInt " -5x" = some (-5) := by rfl
example : jsParseInt "abc" = none := by rfl
example : jsParseInt "0" = some 0 := by rfl

/-- The generation prompt text before the first interpolated CV count. -/
def genPromptP1 : String := "You are an expert CV writer. Generate exactly "

/-- The generation prompt text between the first CV count and the job
description. -/
def genPromptP2 : String :=
  " different CVs that would be strong matches for the following job description. Use the provided base data as a foundation for personal information and experience.\n\nJob Description:\n"

/-- The generation prompt text between the job description and the base
data. -/
def genPromptP3 : String := "\n\nBase Data (use as foundation):\n"

/-- The generation prompt text between the base data and the second CV
count. -/
def genPromptP4 : String := "\n\nIMPORTANT: Generate exactly "

/-- The generation prompt text between the second and the third CV count:
the per-CV formatting template. -/
def genPromptP5 : String :=
  " different CVs, each with unique strengths and approaches. Each CV should be completely different from the others.\n\nFormat each CV as a structured document with clear sections and proper formatting:\n\n# [CANDIDATE NAME]\n## Personal Information\n- Email: [email]\n- Phone: [phone]\n- Location: [location]\n- LinkedIn: [linkedin]\n\n## Professional Summary\n[2-3 sentences highlighting key strengths and experience relevant to the job]\n\n## Work Experience\n### [Job Title] at [Company] | [Dates]\n- [Achievement 1 with metrics]\n- [Achievement 2 with metrics]\n- [Achievement 3 with metrics]\n\n### [Previous Job Title] at [Company] | [Dates]\n- [Achievement 1 with metrics]\n- [Achievement 2 with metrics]\n\n## Education\n### [Degree] in [Field] | [University] | [Year]\n- [Relevant coursework or achievements]\n\n## Skills\n**Technical Skills:** [List relevant technical skills]\n**Soft Skills:** [List relevant soft skills]\n**Certifications:** [List relevant certifications]\n\n## Additional Information\n- [Any other relevant information]\n\nReturn the response in the following JSON format with exactly "

/-- The generation prompt text after the third CV count: the requested JSON
format. -/
def genPromptP6 : String :=
  " CVs:\n\x7b\n  \"cvs\": [\n    \x7b\n      \"title\": \"CV 1 - [Unique Focus/Approach]\",\n      \"content\": \"Full CV content with proper formatting as shown above...\"\n    \x7d,\n    \x7b\n      \"title\": \"CV 2 - [Different Focus/Approach]\",\n      \"content\": \"Full CV content with proper formatting as shown above...\"\n    \x7d\n  ]\n\x7d"

/-- Model of the `prompt` template literal of `/api/generate-cvs`: the CV
count is interpolated three times. -/
def buildGenPrompt (numCVs : Int) (jobDescription baseDataText : String) : String :=
  genPromptP1 ++ toString numCVs ++ genPromptP2 ++ jobDescription ++
    genPromptP3 ++ baseDataText ++ genPromptP4 ++ toString numCVs ++
    genPromptP5 ++ toString numCVs ++ genPromptP6

/-- The effects available to the `/api/generate-cvs` handler. -/
structure GenEnv where
  fs : FsEnv
  modelCall : String → Except String String
  unlink : String → Except String Unit

/-- Shared tail of the `/api/generate-cvs` handler, from the model call
onward (source lines after the base-data resolution): call the model with
the assembled prompt, strip control characters, `JSON.parse`, and on a parse
throw respond with one pseudo-document whose `content` is the cleaned
response.  `attempted` carries the deletions already attempted. -/
def genContinue (env : GenEnv) (numCVs : Int) (jobDescription baseDataText : String)
    (attempted : List String) : ApiResponse × List String :=
  match env.modelCall (buildGenPrompt numCVs jobDescription baseDataText) with
  | .error e => (.serverError ("Failed to generate CVs: " ++ e), attempted)
  | .ok response =>
    let cleanedResponse := stripControl response
    match parseJson cleanedResponse with
    | some parsedData => (.ok true parsedData, attempted)
    | none =>
      (.ok true (Json.obj [("cvs", Json.arr
        [Json.obj [("title", Json.str "Generated CV"),
                   ("content", Json.str cleanedResponse)]])]), attempted)

/-- Model of the `/api/generate-cvs` handler.  `jobDescription`,
`numberOfCVs` and `additionalData` are the body fields (absent fields are
`none`); `file` is the optional `baseData` upload.  Mirrors the source
order: truthiness check on the job description, `parseInt` validation
(`!numCVs || numCVs < 1` — no upper bound), base-data resolution (an
uploaded file overrides `additionalData` and is deleted synchronously),
then the shared model-call tail. -/
def generateCvsHandler (env : GenEnv) (jobDescription : Option String)
    (numberOfCVs : Option String) (additionalData : Option String)
    (file : Option UploadedFile) : ApiResponse × List String :=
  match jobDescription with
  | none => (.badRequest "Job description is required", [])
  | some jd =>
    if jd = "" then (.badRequest "Job description is required", [])
    else
      match numberOfCVs.bind jsParseInt with
      | none => (.badRequest "Number of CVs must be a positive integer", [])
      | some n =>
        if n < 1 then (.badRequest "Number of CVs must be a positive integer", [])
        else
          match file with
          | none => genContinue env n jd (additionalData.getD "") []
          | some f =>
            match extractTextFromFile env.fs f.path f.mimetype with
            | .error e => (.serverError ("Failed to generate CVs: " ++ e), [])
            | .ok baseDataText =>
              match env.unlink f.path with
              | .error e => (.serverError ("Failed to generate CVs: " ++ e), [f.path])
              | .ok _ => genContinue env n jd baseDataText [f.path]

/-- The cleaning-then-parse pipeline both handlers apply to the model output
text: strip ASCII control characters, then `JSON.parse`. -/
def cleanAndParse (raw : String) : Option Json :=
  parseJson (stripControl raw)

/-- The labelled text of one CV inside the ranking prompt, without the
trailing delimiter: 1-based ordinal, original filename, extracted text. -/
def cvLabel (i : Nat) (cv : String × String) : String :=
  "CV " ++ toString (i + 1) ++ " (" ++ cv.1 ++ "):\n" ++ cv.2

lemma cvEntry_eq_label (i : Nat) (cv : String × String) :
    cvEntry i cv = cvLabel i cv ++ "\n---" := rfl

lemma jsJoin_cvEntry_eq (i : Nat) (c : String × String)
    (cvs : List (String × String)) :
    jsJoin "\n" (mapWithIndex cvEntry i (c :: cvs)) =
      jsJoin "\n---\n" (mapWithIndex cvLabel i (c :: cvs)) ++ "\n---" := by
  induction cvs generalizing i c with
  | nil => rfl
  | cons d tl ih =>
    have hih := ih (i + 1) d
    have h1 : jsJoin "\n" (mapWithIndex cvEntry i (c :: d :: tl)) =
        cvEntry i c ++ "\n" ++ jsJoin "\n" (mapWithIndex cvEntry (i + 1) (d :: tl)) := rfl
    have h2 : jsJoin "\n---\n" (mapWithIndex cvLabel i (c :: d :: tl)) =
        cvLabel i c ++ "\n---\n" ++
          jsJoin "\n---\n" (mapWithIndex cvLabel (i + 1) (d :: tl)) := rfl
    have hlit : ("\n---" : String) ++ "\n" = "\n---\n" := by decide
    rw [h1, h2, hih, cvEntry_eq_label]
    simp only [← String.append_assoc]
    rw [String.append_assoc (cvLabel i c) "\n---" "\n", hlit]

/-- C1: a file whose declared media type is legacy Word
(`application/msword`) passes the upload allow-list, yet
`extractTextFromFile` has no branch for that MIME type and throws
`Unsupported file type` for every environment and path, so extraction never
returns the document's text. -/
theorem msword_accepted_yet_extraction_fails (env : FsEnv) (p : String) :
    fileFilterAccepts "application/msword" = true ∧
      extractTextFromFile env p "application/msword" =
        .error "Unsupported file type" :=
  ⟨rfl, rfl⟩

/-- C5: the pipeline first removes every ASCII control character (0x00-0x1F
and 0x7F) and then parses; hence on any text whose control characters
surround otherwise-valid JSON (its non-control subsequence `t` parses to
`j`), the cleaned text contains no control character and the parse succeeds
with `j`. -/
theorem cleanAndParse_strips_then_parses (s t : String) (j : Json)
    (hfilter : t.data = s.data.filter (fun c => !(isCtrlChar c)))
    (hparse : parseJson t = some j) :
    (∀ c ∈ (stripControl s).data, isCtrlChar c = false) ∧
      cleanAndParse s = some j := by
  have hst : stripControl s = t := by
    cases t with
    | mk d => exact String.ext (by simpa [stripControl] using hfilter.symm)
  refine ⟨?_, ?_⟩
  · intro c hc
    have hc2 : c ∈ s.data.filter (fun c => !(isCtrlChar c)) := by
      simpa [stripControl] using hc
    have := (List.mem_filter.mp hc2).2
    simpa using this
  · unfold cleanAndParse
    rw [hst]
    exact hparse

/-- Closed witness for C5 at a concrete input with embedded control bytes. -/
theorem cleanAndParse_strips_then_parses_witness :
    (∀ c ∈ (stripControl "\x00\x7b\"a\": [1, true]\x7d\x1f\x7f").data,
        isCtrlChar c = false) ∧
      cleanAndParse "\x00\x7b\"a\": [1, true]\x7d\x1f\x7f" =
        some (.obj [("a", .arr [.num "1", .bool true])]) :=
  cleanAndParse_strips_then_parses "\x00\x7b\"a\": [1, true]\x7d\x1f\x7f"
    "\x7b\"a\": [1, true]\x7d" (.obj [("a", .arr [.num "1", .bool true])])
    (by decide) (by rfl)

/-- C8: the ranking prompt is the fixed header, then the job-description
text, then the CV block in which each submitted CV appears in submission
order, labelled with its 1-based ordinal and original filename, consecutive
entries separated by the fixed delimiter between `---` markers. -/
theorem rank_prompt_structure (jd : String) (cvs : List (String × String))
    (h : cvs ≠ []) :
    buildRankPrompt jd cvs =
      rankPromptHead ++ jd ++ rankPromptMid ++
        (jsJoin "\n---\n" (mapWithIndex cvLabel 0 cvs) ++ "\n---") ++
        rankPromptTail := by
  match cvs, h with
  | c :: tl, _ =>
    unfold buildRankPrompt
    rw [jsJoin_cvEntry_eq 0 c tl]

/-- Closed witness for C8 at two concrete CVs. -/
theorem rank_prompt_structure_witness :
    buildRankPrompt "JD" [("a.pdf", "ATEXT"), ("b.pdf", "BTEXT")] =
      rankPromptHead ++ "JD" ++ rankPromptMid ++
        (jsJoin "\n---\n"
          (mapWithIndex cvLabel 0 [("a.pdf", "ATEXT"), ("b.pdf", "BTEXT")]) ++
          "\n---") ++ rankPromptTail :=
  rank_prompt_structure "JD" [("a.pdf", "ATEXT"), ("b.pdf", "BTEXT")]
    (by decide)

lemma unlinkAll_ok (unlink : String → Except String Unit)
    (h : ∀ p, unlink p = .ok ()) (files : List UploadedFile) :
    unlinkAll unlink files = (files.map (·.path), none) := by
  induction files with
  | nil => rfl
  | cons f tl ih => simp [unlinkAll, h f.path, ih]

/-- A plain-text CV file as multer stores it. -/
def cvFileA : UploadedFile := ⟨"uploads/1-a.txt", "a.txt", "text/plain"⟩

/-- A second plain-text CV file. -/
def cvFileB : UploadedFile := ⟨"uploads/3-b.txt", "b.txt", "text/plain"⟩

/-- A third plain-text CV file. -/
def cvFileC : UploadedFile := ⟨"uploads/4-c.txt", "c.txt", "text/plain"⟩

/-- A plain-text job-description file. -/
def jdFileA : UploadedFile := ⟨"uploads/2-jd.txt", "jd.txt", "text/plain"⟩

/-- A file system on which every plain-text read succeeds. -/
def fsTextOk : FsEnv :=
  ⟨fun _ => .error "not a pdf", fun _ => .error "not a docx",
   fun _ => .ok "FILE TEXT"⟩

/-- A file system on which every read throws. -/
def fsTextFail : FsEnv :=
  ⟨fun _ => .error "boom", fun _ => .error "boom", fun _ => .error "boom"⟩

/-- Environment: reads succeed, the model returns unparseable text,
deletions succeed. -/
def rankEnvGarbage : RankEnv :=
  ⟨fsTextOk, fun _ => .ok "no valid json here", fun _ => .ok ()⟩

/-- Environment: reads succeed, the model returns different unparseable
text, deletions succeed. -/
def rankEnvGarbage2 : RankEnv :=
  ⟨fsTextOk, fun _ => .ok "** gibberish **", fun _ => .ok ()⟩

/-- Environment: like `rankEnvGarbage` but every `unlinkSync` throws. -/
def rankEnvGarbageBadUnlink : RankEnv :=
  ⟨fsTextOk, fun _ => .ok "no valid json here", fun _ => .error "EPERM"⟩

/-- Environment: file reads throw, so extraction fails. -/
def rankEnvExtractFail : RankEnv :=
  ⟨fsTextFail, fun _ => .ok "irrelevant", fun _ => .ok ()⟩

/-- Environment: the model returns valid JSON, deletions succeed. -/
def rankEnvValidJson : RankEnv :=
  ⟨fsTextOk, fun _ => .ok "\x7b\"rankings\":[]\x7d", fun _ => .ok ()⟩

/-- Environment: like `rankEnvValidJson` but every `unlinkSync` throws. -/
def rankEnvValidJsonBadUnlink : RankEnv :=
  ⟨fsTextOk, fun _ => .ok "\x7b\"rankings\":[]\x7d", fun _ => .error "EPERM"⟩

/-- C2 counterexample: a rank-cvs request whose model output fails to parse,
yet the handler responds with a 500 error status, because the cleanup
deletion throws before the parse is reached. -/
theorem rank_parse_failure_can_still_error :
    cleanAndParse "no valid json here" = none ∧
      (rankCvsHandler rankEnvGarbageBadUnlink [cvFileA] [jdFileA]).1 =
        .serverError "Failed to rank CVs: EPERM" :=
  ⟨rfl, rfl⟩

/-- C2 (amended): a rank-cvs request that reaches the parse step (extraction,
model call and cleanup deletions all succeed) and whose model output fails
to parse is answered 200 with success `true` and exactly one fallback record
whose score is 0 and whose advantages and disadvantages are empty. -/
theorem rank_parse_failure_fallback (env : RankEnv) (cv0 jd : UploadedFile)
    (cvrest jdrest : List UploadedFile) (jdText : String)
    (cvTexts : List (String × String)) (out : String)
    (hjd : extractTextFromFile env.fs jd.path jd.mimetype = .ok jdText)
    (hcvs : extractAll env.fs (cv0 :: cvrest) = .ok cvTexts)
    (hmodel : env.modelCall (buildRankPrompt jdText cvTexts) = .ok out)
    (hunlink : ∀ p, env.unlink p = .ok ())
    (hparse : cleanAndParse out = none) :
    (rankCvsHandler env (cv0 :: cvrest) (jd :: jdrest)).1 = .ok true fallbackData ∧
      fallbackData = .obj [("rankings", .arr [fallbackRecord])] ∧
      fallbackRecord.getObjField "score" = some (.num "0") ∧
      fallbackRecord.getObjField "advantages" = some (.arr []) ∧
      fallbackRecord.getObjField "disadvantages" = some (.arr []) := by
  have hu := unlinkAll_ok env.unlink hunlink (cv0 :: (cvrest ++ (jd :: jdrest)))
  unfold cleanAndParse at hparse
  exact ⟨by simp [rankCvsHandler, hjd, hcvs, hmodel, hu, hparse], rfl, rfl, rfl, rfl⟩

/-- Closed witness for C2 at a concrete request. -/
theorem rank_parse_failure_fallback_witness :
    (rankCvsHandler rankEnvGarbage [cvFileA] [jdFileA]).1 = .ok true fallbackData ∧
      fallbackData = .obj [("rankings", .arr [fallbackRecord])] ∧
      fallbackRecord.getObjField "score" = some (.num "0") ∧
      fallbackRecord.getObjField "advantages" = some (.arr []) ∧
      fallbackRecord.getObjField "disadvantages" = some (.arr []) :=
  rank_parse_failure_fallback rankEnvGarbage cvFileA jdFileA [] []
    "FILE TEXT" [("a.txt", "FILE TEXT")] "no valid json here"
    rfl rfl rfl (fun _ => rfl) rfl

/-- C3 counterexample: on the extraction-failure exit path the handler
responds 500 and attempts no deletion at all, although a CV and a job
description were uploaded. -/
theorem rank_extraction_failure_skips_cleanup :
    (rankCvsHandler rankEnvExtractFail [cvFileA] [jdFileA]).1 =
        .serverError "Failed to rank CVs: boom" ∧
      (rankCvsHandler rankEnvExtractFail [cvFileA] [jdFileA]).2 = [] ∧
      ([cvFileA], [jdFileA]) ≠ (([] : List UploadedFile), ([] : List UploadedFile)) :=
  ⟨rfl, rfl, by simp⟩

/-- C3 (amended): deletion of all uploaded files is attempted exactly on the
exit paths that follow a successful model call (success and parse-failure
responses, given deletions do not throw); on the extraction-failure and
model-call-failure exit paths no deletion is attempted. -/
theorem rank_deletion_attempts (env : RankEnv) (cv0 jd : UploadedFile)
    (cvrest jdrest : List UploadedFile) :
    (∀ jdText cvTexts out,
        extractTextFromFile env.fs jd.path jd.mimetype = .ok jdText →
        extractAll env.fs (cv0 :: cvrest) = .ok cvTexts →
        env.modelCall (buildRankPrompt jdText cvTexts) = .ok out →
        (∀ p, env.unlink p = .ok ()) →
        (rankCvsHandler env (cv0 :: cvrest) (jd :: jdrest)).2 =
          ((cv0 :: cvrest) ++ (jd :: jdrest)).map (·.path)) ∧
    (∀ e, extractTextFromFile env.fs jd.path jd.mimetype = .error e →
        (rankCvsHandler env (cv0 :: cvrest) (jd :: jdrest)).2 = []) ∧
    (∀ jdText e,
        extractTextFromFile env.fs jd.path jd.mimetype = .ok jdText →
        extractAll env.fs (cv0 :: cvrest) = .error e →
        (rankCvsHandler env (cv0 :: cvrest) (jd :: jdrest)).2 = []) ∧
    (∀ jdText cvTexts e,
        extractTextFromFile env.fs jd.path jd.mimetype = .ok jdText →
        extractAll env.fs (cv0 :: cvrest) = .ok cvTexts →
        env.modelCall (buildRankPrompt jdText cvTexts) = .error e →
        (rankCvsHandler env (cv0 :: cvrest) (jd :: jdrest)).2 = []) := by
  refine ⟨?_, ?_, ?_, ?_⟩
  · intro jdText cvTexts out hjd hcvs hmodel hunlink
    have hu := unlinkAll_ok env.unlink hunlink (cv0 :: (cvrest ++ (jd :: jdrest)))
    cases hp : parseJson (stripControl out) with
    | none => simp [rankCvsHandler, hjd, hcvs, hmodel, hu, hp]
    | some j => simp [rankCvsHandler, hjd, hcvs, hmodel, hu, hp]
  · intro e hjd
    simp [rankCvsHandler, hjd]
  · intro jdText e hjd hcvs
    simp [rankCvsHandler, hjd, hcvs]
  · intro jdText cvTexts e hjd hcvs hmodel
    simp [rankCvsHandler, hjd, hcvs, hmodel]

/-- Closed witness for C3's amended statement at a concrete request. -/
theorem rank_deletion_attempts_witness :
    (rankCvsHandler rankEnvGarbage [cvFileA] [jdFileA]).2 =
      ["uploads/1-a.txt", "uploads/2-jd.txt"] :=
  (rank_deletion_attempts rankEnvGarbage cvFileA jdFileA [] []).1
    "FILE TEXT" [("a.txt", "FILE TEXT")] "no valid json here"
    rfl rfl rfl (fun _ => rfl)

/-- C4 counterexample: two requests identical except that `unlinkSync`
throws in one of them receive different responses — the deletion failure
turns a 200 success into a 500 error, so it is escalated. -/
theorem rank_unlink_failure_changes_response :
    (rankCvsHandler rankEnvValidJsonBadUnlink [cvFileA] [jdFileA]).1 =
        .serverError "Failed to rank CVs: EPERM" ∧
      (rankCvsHandler rankEnvValidJson [cvFileA] [jdFileA]).1 =
        .ok true (.obj [("rankings", .arr [])]) ∧
      (rankCvsHandler rankEnvValidJsonBadUnlink [cvFileA] [jdFileA]).1 ≠
        (rankCvsHandler rankEnvValidJson [cvFileA] [jdFileA]).1 := by
  refine ⟨rfl, rfl, fun h => ?_⟩
  have h2 : ApiResponse.serverError "Failed to rank CVs: EPERM" =
      ApiResponse.ok true (.obj [("rankings", .arr [])]) := h
  exact ApiResponse.noConfusion h2

/-- C4 (amended): a throwing deletion is escalated: it aborts the cleanup
loop and the handler responds 500 with the deletion error's message, instead
of the response the request would otherwise have received. -/
theorem rank_unlink_failure_escalates (env : RankEnv) (cv0 jd : UploadedFile)
    (cvrest jdrest : List UploadedFile) (jdText : String)
    (cvTexts : List (String × String)) (out : String) (att : List String)
    (e : String)
    (hjd : extractTextFromFile env.fs jd.path jd.mimetype = .ok jdText)
    (hcvs : extractAll env.fs (cv0 :: cvrest) = .ok cvTexts)
    (hmodel : env.modelCall (buildRankPrompt jdText cvTexts) = .ok out)
    (hunlink : unlinkAll env.unlink ((cv0 :: cvrest) ++ (jd :: jdrest)) =
      (att, some e)) :
    rankCvsHandler env (cv0 :: cvrest) (jd :: jdrest) =
      (.serverError ("Failed to rank CVs: " ++ e), att) := by
  have hunlink2 : unlinkAll env.unlink (cv0 :: (cvrest ++ (jd :: jdrest))) =
      (att, some e) := hunlink
  simp [rankCvsHandler, hjd, hcvs, hmodel, hunlink2]

/-- Closed witness for C4's amended statement at a concrete request. -/
theorem rank_unlink_failure_escalates_witness :
    rankCvsHandler rankEnvValidJsonBadUnlink [cvFileA] [jdFileA] =
      (.serverError ("Failed to rank CVs: " ++ "EPERM"), ["uploads/1-a.txt"]) :=
  rank_unlink_failure_escalates rankEnvValidJsonBadUnlink cvFileA jdFileA [] []
    "FILE TEXT" [("a.txt", "FILE TEXT")] "\x7b\"rankings\":[]\x7d"
    ["uploads/1-a.txt"] "EPERM" rfl rfl rfl rfl

/-- Environment: the model returns valid JSON whose single ranking record
has only a `filename` field. -/
def rankEnvThin : RankEnv :=
  ⟨fsTextOk, fun _ => .ok "\x7b\"rankings\":[\x7b\"filename\":\"a\"\x7d]\x7d",
   fun _ => .ok ()⟩

/-- The parsed model output of `rankEnvThin`: a ranking record with a single
field. -/
def thinData : Json :=
  .obj [("rankings", .arr [.obj [("filename", .str "a")]])]

/-- C9 counterexample: parse-success output is passed through with no
validation, so a response can contain a ranking record that has a filename
but none of the other seven fields — neither fully populated nor the
fallback record. -/
theorem rank_record_can_be_thin :
    (rankCvsHandler rankEnvThin [cvFileA] [jdFileA]).1 = .ok true thinData ∧
      thinData.getObjField "rankings" =
        some (.arr [.obj [("filename", .str "a")]]) ∧
      (Json.obj [("filename", .str "a")]).getObjField "candidateName" = none ∧
      (Json.obj [("filename", .str "a")]).getObjField "score" = none ∧
      thinData ≠ fallbackData := by
  refine ⟨rfl, rfl, rfl, rfl, fun h => ?_⟩
  have henc : Json.enc thinData ≠ Json.enc fallbackData := by decide
  exact henc (congrArg Json.enc h)

/-- C9 (amended): on the paths that reach the parse step, the response data
is either the model's parsed output passed through verbatim — with no
validation that its records are fully populated — or the fixed fallback
structure wholesale. -/
theorem rank_response_verbatim_or_fallback (env : RankEnv)
    (cv0 jd : UploadedFile) (cvrest jdrest : List UploadedFile)
    (jdText : String) (cvTexts : List (String × String)) (out : String)
    (hjd : extractTextFromFile env.fs jd.path jd.mimetype = .ok jdText)
    (hcvs : extractAll env.fs (cv0 :: cvrest) = .ok cvTexts)
    (hmodel : env.modelCall (buildRankPrompt jdText cvTexts) = .ok out)
    (hunlink : ∀ p, env.unlink p = .ok ()) :
    (rankCvsHandler env (cv0 :: cvrest) (jd :: jdrest)).1 =
        .ok true fallbackData ∨
      ∃ j, cleanAndParse out = some j ∧
        (rankCvsHandler env (cv0 :: cvrest) (jd :: jdrest)).1 = .ok true j := by
  have hu := unlinkAll_ok env.unlink hunlink (cv0 :: (cvrest ++ (jd :: jdrest)))
  cases hp : parseJson (stripControl out) with
  | none =>
    left
    simp [rankCvsHandler, hjd, hcvs, hmodel, hu, hp]
  | some j =>
    right
    exact ⟨j, by simpa [cleanAndParse] using hp,
      by simp [rankCvsHandler, hjd, hcvs, hmodel, hu, hp]⟩

/-- Closed witness for C9's amended statement at a concrete request. -/
theorem rank_response_verbatim_or_fallback_witness :
    (rankCvsHandler rankEnvThin [cvFileA] [jdFileA]).1 = .ok true fallbackData ∨
      ∃ j, cleanAndParse "\x7b\"rankings\":[\x7b\"filename\":\"a\"\x7d]\x7d" = some j ∧
        (rankCvsHandler rankEnvThin [cvFileA] [jdFileA]).1 = .ok true j :=
  rank_response_verbatim_or_fallback rankEnvThin cvFileA jdFileA [] []
    "FILE TEXT" [("a.txt", "FILE TEXT")]
    "\x7b\"rankings\":[\x7b\"filename\":\"a\"\x7d]\x7d"
    rfl rfl rfl (fun _ => rfl)

/-- C10: for any two parse-failing requests — whatever their CV files, job
descriptions or model outputs — the 200 response carries the same fixed
fallback structure, whose single record's filename field is the literal
string `Error parsing AI response`. -/
theorem rank_fallback_constant (env env2 : RankEnv) (cv0 jd cv2 jd2 : UploadedFile)
    (cvrest jdrest cvrest2 jdrest2 : List UploadedFile)
    (jdText jdText2 : String) (cvTexts cvTexts2 : List (String × String))
    (out out2 : String)
    (hjd : extractTextFromFile env.fs jd.path jd.mimetype = .ok jdText)
    (hcvs : extractAll env.fs (cv0 :: cvrest) = .ok cvTexts)
    (hmodel : env.modelCall (buildRankPrompt jdText cvTexts) = .ok out)
    (hunlink : ∀ p, env.unlink p = .ok ())
    (hparse : cleanAndParse out = none)
    (kjd : extractTextFromFile env2.fs jd2.path jd2.mimetype = .ok jdText2)
    (kcvs : extractAll env2.fs (cv2 :: cvrest2) = .ok cvTexts2)
    (kmodel : env2.modelCall (buildRankPrompt jdText2 cvTexts2) = .ok out2)
    (kunlink : ∀ p, env2.unlink p = .ok ())
    (kparse : cleanAndParse out2 = none) :
    (rankCvsHandler env (cv0 :: cvrest) (jd :: jdrest)).1 =
        (rankCvsHandler env2 (cv2 :: cvrest2) (jd2 :: jdrest2)).1 ∧
      (rankCvsHandler env (cv0 :: cvrest) (jd :: jdrest)).1 =
        .ok true fallbackData ∧
      fallbackRecord.getObjField "filename" =
        some (.str "Error parsing AI response") := by
  have hu := unlinkAll_ok env.unlink hunlink (cv0 :: (cvrest ++ (jd :: jdrest)))
  have ku := unlinkAll_ok env2.unlink kunlink (cv2 :: (cvrest2 ++ (jd2 :: jdrest2)))
  unfold cleanAndParse at hparse kparse
  have h1 : (rankCvsHandler env (cv0 :: cvrest) (jd :: jdrest)).1 =
      .ok true fallbackData := by
    simp [rankCvsHandler, hjd, hcvs, hmodel, hu, hparse]
  have h2 : (rankCvsHandler env2 (cv2 :: cvrest2) (jd2 :: jdrest2)).1 =
      .ok true fallbackData := by
    simp [rankCvsHandler, kjd, kcvs, kmodel, ku, kparse]
  exact ⟨h1.trans h2.symm, h1, rfl⟩

/-- Closed witness for C10 at two different concrete requests. -/
theorem rank_fallback_constant_witness :
    (rankCvsHandler rankEnvGarbage [cvFileA] [jdFileA]).1 =
        (rankCvsHandler rankEnvGarbage2 [cvFileB, cvFileC] [jdFileA]).1 ∧
      (rankCvsHandler rankEnvGarbage [cvFileA] [jdFileA]).1 =
        .ok true fallbackData ∧
      fallbackRecord.getObjField "filename" =
        some (.str "Error parsing AI response") :=
  rank_fallback_constant rankEnvGarbage rankEnvGarbage2 cvFileA jdFileA
    cvFileB jdFileA [] [] [cvFileC] [] "FILE TEXT" "FILE TEXT"
    [("a.txt", "FILE TEXT")] [("b.txt", "FILE TEXT"), ("c.txt", "FILE TEXT")]
    "no valid json here" "** gibberish **"
    rfl rfl rfl (fun _ => rfl) rfl rfl rfl rfl (fun _ => rfl) rfl

/-- Generation environment: the model returns valid JSON, deletions
succeed. -/
def genEnvOk : GenEnv :=
  ⟨fsTextOk, fun _ => .ok "\x7b\"cvs\":[]\x7d", fun _ => .ok ()⟩

/-- Generation environment: the model returns unparseable text that starts
with a control byte. -/
def genEnvCtrlGarbage : GenEnv :=
  ⟨fsTextOk, fun _ => .ok "\x01bad", fun _ => .ok ()⟩

lemma genContinue_not_badRequest (env : GenEnv) (n : Int) (jd base : String)
    (att : List String) (m : String) :
    (genContinue env n jd base att).1 ≠ .badRequest m := by
  unfold genContinue
  cases env.modelCall (buildGenPrompt n jd base) with
  | error e => simp
  | ok out =>
    cases hp : parseJson (stripControl out) with
    | none => simp [hp]
    | some j => simp [hp]

/-- C6 counterexample: a generate-cvs request with `numberOfCVs = "11"` is
not rejected — the handler proceeds to the model call and responds 200 —
although 11 is above 10. -/
theorem gen_numCVs_above_ten_accepted :
    jsParseInt "11" = some 11 ∧ (10 : Int) < 11 ∧
      (generateCvsHandler genEnvOk (some "JD") (some "11") none none).1 =
        .ok true (.obj [("cvs", .arr [])]) :=
  ⟨rfl, by decide, rfl⟩

/-- C6 (amended): `numberOfCVs` is validated only on the lower side — a
request is rejected with the validation message exactly when `parseInt` of
the field yields `NaN`, `0` or a value below 1; any parsed value of 1 or
more, with no upper bound, passes validation and never produces a 400. -/
theorem gen_numCVs_validation (env : GenEnv) (jd : String) (num : Option String)
    (add : Option String) (file : Option UploadedFile) (hjd : jd ≠ "") :
    ((num.bind jsParseInt = none ∨ ∃ n, num.bind jsParseInt = some n ∧ n < 1) →
      generateCvsHandler env (some jd) num add file =
        (.badRequest "Number of CVs must be a positive integer", [])) ∧
    (∀ n, num.bind jsParseInt = some n → 1 ≤ n →
      ∀ m, (generateCvsHandler env (some jd) num add file).1 ≠ .badRequest m) := by
  constructor
  · intro hrej
    simp only [generateCvsHandler]
    rw [if_neg hjd]
    rcases hrej with hnone | ⟨n, hsome, hlt⟩
    · rw [hnone]
    · rw [hsome]
      dsimp only
      rw [if_pos hlt]
  · intro n hsome hge m
    simp only [generateCvsHandler]
    rw [if_neg hjd, hsome]
    dsimp only
    rw [if_neg (by omega : ¬ n < 1)]
    cases file with
    | none => exact genContinue_not_badRequest env n jd (add.getD "") [] m
    | some f =>
      dsimp only
      cases extractTextFromFile env.fs f.path f.mimetype with
      | error e => exact fun h => ApiResponse.noConfusion h
      | ok base =>
        cases env.unlink f.path with
        | error e => exact fun h => ApiResponse.noConfusion h
        | ok u => exact genContinue_not_badRequest env n jd base [f.path] m

/-- Closed witness for C6's amended statement: `numberOfCVs = "0"` is
rejected with the validation message. -/
theorem gen_numCVs_validation_witness :
    generateCvsHandler genEnvOk (some "JD") (some "0") none none =
      (.badRequest "Number of CVs must be a positive integer", []) :=
  (gen_numCVs_validation genEnvOk "JD" (some "0") none none (by decide)).1
    (Or.inr ⟨0, rfl, by decide⟩)

/-- C7 counterexample: when the model output fails to parse, the pseudo-
document's `content` is the control-character-stripped text, which differs
from the raw model output when the raw output contains control bytes. -/
theorem gen_fallback_content_is_cleaned :
    (generateCvsHandler genEnvCtrlGarbage (some "JD") (some "2") none none).1 =
        .ok true (.obj [("cvs", .arr [.obj [("title", .str "Generated CV"),
          ("content", .str "bad")]])]) ∧
      stripControl "\x01bad" = "bad" ∧ ("bad" : String) ≠ "\x01bad" :=
  ⟨rfl, rfl, by decide⟩

/-- C7 (amended): on every generate-cvs request whose model call returns and
whose output fails to parse, the response holds exactly one pseudo-document
titled `Generated CV` whose content is the control-character-stripped
unparsed model output. -/
theorem gen_parse_failure_single_doc (env : GenEnv) (n : Int) (jd base : String)
    (att : List String) (out : String)
    (hmodel : env.modelCall (buildGenPrompt n jd base) = .ok out)
    (hparse : cleanAndParse out = none) :
    genContinue env n jd base att =
      (.ok true (.obj [("cvs", .arr [.obj [("title", .str "Generated CV"),
        ("content", .str (stripControl out))]])]), att) := by
  unfold cleanAndParse at hparse
  simp [genContinue, hmodel, hparse]

/-- Closed witness for C7's amended statement at a concrete request. -/
theorem gen_parse_failure_single_doc_witness :
    genContinue genEnvCtrlGarbage 2 "JD" "" [] =
      (.ok true (.obj [("cvs", .arr [.obj [("title", .str "Generated CV"),
        ("content", .str (stripControl "\x01bad"))]])]), []) :=
  gen_parse_failure_single_doc genEnvCtrlGarbage 2 "JD" "" [] "\x01bad" rfl rfl
